import Mathlib

/-!
Shallow embedding of `src/app/@content/works/data.ts`: the work-catalog
content module of the portfolio site (types, image-descriptor builders,
the literal catalog, and the derived query layer), together with theorems
settling the specification claims about it.

The TypeScript `Record<string, WorkDetail>` object literal is modelled as
an association list in insertion order (JavaScript objects preserve
insertion order for non-numeric string keys); `Object.values`,
`Object.keys` and bracket lookup become `map Prod.snd`, `map Prod.fst`
and `List.lookup`. Optional fields become `Option`; the JavaScript
truthiness test `width && { width }` on a number becomes a zero test on
`Option Nat`.
-/

namespace WorksData

/-- `interface WorkImage` from the source. -/
structure WorkImage where
  src : String
  srcSet : Option String
  alt : String
  width : Option Nat
  height : Option Nat
  sizes : Option String
deriving DecidableEq

/-- `interface WorkAbout` from the source. -/
structure WorkAbout where
  client : String
  contribution : String
  year : String
deriving DecidableEq

/-- The closed category union type `'products' | 'uiux' | '3d'`. -/
inductive Category where
  | products
  | uiux
  | threeD
deriving DecidableEq

/-- `interface WorkDetail` from the source. -/
structure WorkDetail where
  id : String
  title : String
  description : String
  category : Category
  thumbnailImage : String
  heroImage : WorkImage
  secondaryImage : WorkImage
  about : WorkAbout
  fullDescription : String
  processImage : WorkImage
  problemTitle : String
  problemDescription : List String
  solutionTitle : String
  solutionDescription : List String
  closingImage : WorkImage
  externalLink : Option String
deriving DecidableEq

/-- `generateSrcSet`: the template literal
`` `${src}?scale-down-to=512 512w,...,${src} 4500w` ``
read as concatenation of its literal chunks and interpolated holes. -/
def generateSrcSet (src : String) : String :=
  src ++ "?scale-down-to=512 512w," ++ src ++ "?scale-down-to=1024 1024w,"
    ++ src ++ "?scale-down-to=2048 2048w," ++ src ++ "?scale-down-to=4096 4096w,"
    ++ src ++ " 4500w"

/-- `createWorkImage`: the object spreads `...(width && { width })` and
`...(height && { height })` include the field only when the argument is
provided and truthy (a JavaScript number is falsy exactly when it is 0). -/
def createWorkImage (src : String) (alt : String)
    (width : Option Nat := none) (height : Option Nat := none) : WorkImage :=
  { src := src
    srcSet := some (generateSrcSet src)
    alt := alt
    width := width.bind (fun w => if w = 0 then none else some w)
    height := height.bind (fun h => if h = 0 then none else some h)
    sizes := some "calc(100vw - 24px)" }

/-- `createHeroImage`: shorthand fixing width 2400 and height 1600. -/
def createHeroImage (src : String) (alt : String) : WorkImage :=
  createWorkImage src alt (some 2400) (some 1600)

/-- `createSecondaryImage`: shorthand passing no dimensions. -/
def createSecondaryImage (src : String) (alt : String) : WorkImage :=
  createWorkImage src alt

/-- Catalog entry stored under the key `corevia-financial-platform`. -/
def coreviaFinancialPlatform : WorkDetail :=
  { id := "corevia-financial-platform"
    title := "Corevia Financial Management Platform"
    description := "Modern financial consulting website with comprehensive service pages and responsive design."
    category := Category.products
    thumbnailImage := "https://cdn.prod.website-files.com/687a676ef5e70f7d641d3080/687ff334971f215c6e7c3f51_LogoCorevia.svg"
    heroImage := createHeroImage "/Coreva/work/Hero_image.png" "Corevia Financial Platform Hero"
    secondaryImage := createSecondaryImage "/Coreva/work/Secondary.png" "Corevia Multi-Page Interface"
    about := { client := "Corevia Consulting"
               contribution := "Frontend Development, UI Implementation, Responsive Design"
               year := "2024" }
    fullDescription := "A comprehensive financial management platform built for Corevia Consulting, featuring multiple service pages including Home, About, Features, Pricing, Blog, and Contact. The platform showcases financial analytics tools, investment management services, and digital transformation solutions. Built with modern web technologies to deliver a seamless user experience across all devices with intuitive navigation and engaging visual design."
    processImage := createSecondaryImage "/Coreva/work/processing.png" "Corevia Development Process"
    problemTitle := "The Challenge"
    problemDescription := ["Corevia Consulting needed a professional digital presence to showcase their financial management and consulting services to potential clients. The challenge was to create a scalable, multi-page website that could effectively communicate complex financial concepts while maintaining an approachable and modern aesthetic. The platform needed to serve diverse audiences including small businesses, growing teams, and enterprise clients.",
      "The website required clear presentation of service offerings across budgeting tools, investment management, digital transformation consulting, and market expansion strategies. Additionally, the platform needed to include comprehensive pricing tiers, client testimonials, blog functionality for thought leadership content, and contact forms for lead generation—all while maintaining consistent branding and optimal performance across desktop, tablet, and mobile devices."]
    solutionTitle := "The Solution"
    solutionDescription := ["Built with Next.js 16 and TypeScript, leveraging the App Router architecture for optimal performance and SEO capabilities. Implemented a component-based architecture with dedicated page sections for hero, about, benefits, features, core capabilities, pricing, testimonials, blog preview, and call-to-action modules. Created seven distinct pages (Home, About, Features, Pricing, Blog, Blog Detail, Contact) with consistent navigation and footer components.",
      "Designed a modular component system with reusable elements across landing, feature, pricing, blog, and contact sections. Implemented responsive layouts using Tailwind CSS for consistent styling and mobile-first design principles. Created three-tier pricing structure (Starter, Growth, Scale plans) with detailed feature comparisons, animated scroll effects for enhanced user engagement, and optimized image carousels showcasing platform capabilities. Deployed on Netlify for reliable hosting with continuous deployment integration."]
    closingImage := createHeroImage "/Coreva/work/footerimage.png" "Corevia Platform Final Product"
    externalLink := some "https://corevias.netlify.app/" }

/-- Catalog entry stored under the key `landscapo-architecture-platform`. -/
def landscapoArchitecturePlatform : WorkDetail :=
  { id := "landscapo-architecture-platform"
    title := "Landscapo Architecture & Design Platform"
    description := "Professional architecture portfolio website showcasing innovative design solutions with comprehensive project galleries and service offerings."
    category := Category.products
    thumbnailImage := "/Landscape/landscapo-logo.svg"
    heroImage := createHeroImage "/Landscape/work/Hero.png" "Landscapo Architecture Platform Hero"
    secondaryImage := createSecondaryImage "/Landscape/work/Secondary.png" "Landscapo Project Showcase Interface"
    about := { client := "Landscapo Architecture Studio"
               contribution := "Full-Stack Development, UI/UX Implementation, Animation Integration"
               year := "2024" }
    fullDescription := "A comprehensive architecture and design portfolio platform built for Landscapo Studio, featuring dynamic project galleries across multiple categories including Urban, Interior, Corporate, and Residential designs. The platform showcases over 50 completed projects with detailed case studies, expert team profiles, and service offerings. Built with modern web technologies including Next.js and Framer Motion to deliver smooth animations and seamless user experience across all devices, highlighting the studio's expertise in innovative architectural solutions and sustainable design practices."
    processImage := createSecondaryImage "/Landscape/work/Processing.png" "Landscapo Development Process"
    problemTitle := "The Challenge"
    problemDescription := ["Landscapo Architecture Studio needed a sophisticated digital platform to showcase their extensive portfolio of architectural projects and establish their brand presence in the competitive architecture and design market. The challenge was to create a visually stunning, multi-page website that could effectively present complex architectural concepts, project galleries, and design philosophies while maintaining fast load times and smooth interactions. The platform needed to serve diverse audiences including potential clients, industry partners, and design enthusiasts.",
      "The website required seamless presentation of project portfolios across multiple categories (Urban, Interior, Corporate, Residential) with high-quality imagery, detailed project specifications, and interactive galleries. Additionally, the platform needed to communicate the studio's impressive metrics—50+ completed projects, 100+ expert team members, and $3.5M in project value—while incorporating engaging animations, FAQ sections for client inquiries, and clear service descriptions. All of this needed to work flawlessly across desktop, tablet, and mobile devices with intuitive navigation and fast performance."]
    solutionTitle := "The Solution"
    solutionDescription := ["Built with Next.js 14 and TypeScript, leveraging the App Router architecture for optimal performance and SEO capabilities. Implemented Framer Motion for sophisticated scroll-triggered animations and smooth page transitions that enhance the visual storytelling of architectural projects. Created a component-based architecture with dedicated sections for hero presentations, metrics showcase, project galleries, experience highlights, FAQ modules, and call-to-action components. Developed dynamic routing for individual project pages with detailed property information, overview sections, and image galleries.",
      "Designed a modular component system with reusable elements across landing, project, service, about, and contact sections. Implemented responsive layouts using Tailwind CSS for consistent styling and mobile-first design principles. Created an intuitive project categorization system (Urbano, Interior, Corporate) with filtering capabilities and smooth transitions between views. Integrated interactive FAQ accordion components, animated metric counters, and optimized image carousels showcasing architectural designs. Deployed on Netlify for reliable hosting with continuous deployment integration and optimal asset delivery."]
    closingImage := createHeroImage "/Landscape/work/Footer.png" "Landscapo Platform Final Product"
    externalLink := some "https://landscapo.netlify.app/" }

/-- Catalog entry stored under the key `stayli-vacation-rental-platform`. -/
def stayliVacationRentalPlatform : WorkDetail :=
  { id := "stayli-vacation-rental-platform"
    title := "Stayli Vacation Rental Platform"
    description := "Modern vacation rental marketplace connecting travelers with extraordinary stays worldwide, featuring property listings and seamless booking experience."
    category := Category.products
    thumbnailImage := "https://cdn.prod.website-files.com/6811ad3e11282304843a1ca2/6811ad3e11282304843a1e18_stayli-black-logo.svg"
    heroImage := createHeroImage "/Realestate/work/Hero.png" "Stayli Platform Hero"
    secondaryImage := createSecondaryImage "/Realestate/work/secondary.png" "Stayli Property Listings Interface"
    about := { client := "Stayli"
               contribution := "Full-Stack Development, UI/UX Implementation, Dynamic Routing"
               year := "2024" }
    fullDescription := "A comprehensive vacation rental platform built for Stayli, featuring multiple pages including Home, About, Listings, Property Details, and Contact. The platform showcases curated vacation rentals ranging from urban lofts to beachfront villas, mountain cabins, and luxury suites. Built with Next.js App Router architecture to deliver dynamic property browsing, detailed listing pages with image galleries, amenity showcases, and integrated booking forms. The platform serves diverse travelers seeking budget-friendly options to high-end luxury retreats with intuitive search and filtering capabilities."
    processImage := createSecondaryImage "/Realestate/work/Processing.png" "Stayli Development Process"
    problemTitle := "The Challenge"
    problemDescription := ["Stayli needed a digital marketplace to bridge the gap between travelers seeking unique accommodations and property owners offering exceptional stays. The challenge was to create a scalable platform that could effectively showcase diverse property types—from $95 mountain cabins to $210 beachfront suites—while maintaining consistent user experience across property categories. The platform needed to handle dynamic routing for individual property pages, support multiple property attributes (bedrooms, guests, pricing, ratings), and present complex information in an accessible format.",
      "The website required clear presentation of property features including high-quality image galleries, detailed amenities lists, room type variations, location information, and guest reviews. Additionally, the platform needed FAQ sections for customer support, testimonial displays for social proof, destination exploration features, and contact forms for inquiries—all while maintaining optimal performance with image optimization, responsive design across all devices, and SEO-friendly architecture for property discoverability."]
    solutionTitle := "The Solution"
    solutionDescription := ["Built with Next.js 14 and TypeScript, leveraging the App Router with dynamic routing patterns ([slug]) for scalable property detail pages. Implemented a robust data architecture using TypeScript interfaces for type-safe property management, including PropertyImage, PropertyAmenity, and Property models with comprehensive attributes (pricing, ratings, reviews, features, amenities). Created five core pages (Home, About, Listings, Property Detail, Contact) with dedicated component architecture for landing sections, listing displays, and property showcases.",
      "Designed a modular component system with reusable elements across hero sections, destination cards, testimonial displays, FAQ accordions, and call-to-action modules. Implemented responsive image handling with srcSet and sizes attributes for optimal loading performance across devices. Created dynamic property filtering by location, floor, size, and bedrooms with real-time search capabilities. Integrated property rating system (5-star reviews), discount badges, and multi-image carousels for property galleries. Deployed on Netlify with continuous deployment, achieving fast load times and seamless navigation between property listings and detail pages."]
    closingImage := createHeroImage "/Realestate/work/Footer.png" "Stayli Platform Final Product"
    externalLink := some "https://realsttate.netlify.app/" }

/-- Catalog entry stored under the key `elev8-rwanda-website`. -/
def elev8RwandaWebsite : WorkDetail :=
  { id := "elev8-rwanda-website"
    title := "Elev8 Rwanda Corporate Website"
    description := "Multi-brand corporate website with CMS integration and internationalization."
    category := Category.products
    thumbnailImage := "/Elev8/Elev8-logo-dark.svg"
    heroImage := createHeroImage "/Elev8/work/Heroimage.png" "Elev8 Rwanda Website Hero"
    secondaryImage := createSecondaryImage "/Elev8/work/secondaryImage.png" "Elev8 Rwanda Multi-Brand Interface"
    about := { client := "Elev8 Rwanda"
               contribution := "Full-Stack Development, UI/UX Design, CMS Integration"
               year := "2024" }
    fullDescription := "A comprehensive corporate website built for Elev8 Rwanda, featuring two distinct sub-brands: Elev8 Media (digital marketing and media production) and Elev8 Moments (event planning and management). The platform integrates Sanity CMS for dynamic content management, supports three languages (English, French, Arabic), and includes a complete blog system with category filtering and detailed post pages."
    processImage := createSecondaryImage "/Elev8/work/processimage.png" "Elev8 Development Process"
    problemTitle := "The Challenge"
    problemDescription := ["Elev8 Rwanda needed a unified digital presence that could effectively showcase two distinct sub-brands while maintaining a cohesive corporate identity. The challenge was to create a scalable platform that could handle multilingual content, dynamic service offerings, and portfolio showcases for both media production and event management services.",
      "The website needed to serve multiple audiences: potential clients seeking media services, event planning customers, blog readers, and business partners. Additionally, the content team required an intuitive CMS to manage services, team members, testimonials, blog posts, and brand-specific portfolios without technical knowledge."]
    solutionTitle := "The Solution"
    solutionDescription := ["Built with Next.js 14 and TypeScript, leveraging App Router for optimal performance and SEO. Integrated Sanity CMS with custom schema types for flexible content management across home pages, services, brands, team members, testimonials, and blog posts. Implemented a robust internationalization system supporting English, French, and Arabic with locale-specific routing.",
      "Designed a modular component architecture with 12+ reusable home sections including hero, services, stats, testimonials, team showcase, blog preview, and newsletter subscription. Created dedicated brand pages for Elev8 Media and Elev8 Moments with unique service packages, portfolio galleries, and event type showcases. Implemented dark mode support with next-themes and built a comprehensive UI component library using Radix UI and Tailwind CSS for consistent design across all pages."]
    closingImage := createHeroImage "/Elev8/work/ClosingImage.png" "Elev8 Rwanda Final Product"
    externalLink := some "https://www.elev8rwanda.com/en" }

/-- Catalog entry stored under the key `elev8-moments-event-design`. -/
def elev8MomentsEventDesign : WorkDetail :=
  { id := "elev8-moments-event-design"
    title := "Elev8 Moments - Event Design Platform"
    description := "Full-service event design and workshop platform for creating intentional, memorable experiences."
    category := Category.products
    thumbnailImage := "/Elev8-Moments/Elev8-logo-moment-dark.svg"
    heroImage := createHeroImage "/Elev8-Moments/work/hero%20image.png" "Elev8 Moments Event Design Platform"
    secondaryImage := createSecondaryImage "/Elev8-Moments/work/secondary%20image.png" "Event Design Gallery View"
    about := { client := "Elev8 Moments"
               contribution := "Full-Stack Development, UI/UX Design, Brand Integration"
               year := "2024" }
    fullDescription := "Elev8 Moments is a comprehensive digital platform designed to showcase and manage premium event design services, creative workshops, and thoughtful gifting solutions. The platform serves as both a portfolio and booking system for clients seeking intentionally curated experiences that foster connection, celebration, and meaningful moments."
    processImage := createSecondaryImage "/Elev8-Moments/work/process%20image.png" "Development Process"
    problemTitle := "The Challenge"
    problemDescription := ["Event design businesses often struggle to effectively showcase their diverse service offerings—from event setup and décor to creative workshops and corporate gifting—in a cohesive digital experience. Traditional websites fail to capture the emotional essence and attention to detail that defines premium event services.",
      "The client needed a platform that could elegantly present multiple service categories (Event Design, Experiences & Workshops, Thoughtful Gifting) while maintaining a luxurious, intentional brand identity. The challenge was creating an intuitive navigation system that guides visitors through various offerings without overwhelming them, while also showcasing a dynamic image gallery that demonstrates the quality and creativity of their work."]
    solutionTitle := "The Solution"
    solutionDescription := ["Built with Next.js 14 and TypeScript, the platform leverages modern React patterns and server-side rendering for optimal performance and SEO. The architecture features a modular component system with dedicated route sections for each service category, ensuring scalability and maintainability as the business grows.",
      "The design system implements a sophisticated color palette (#F9F2EC cream and #1E1E1E charcoal) with custom typography (NoirEtBlanc for headings, Montserrat for subheadings, Raleway for body text) that reinforces the brand's elegant, intentional aesthetic. Responsive layouts adapt seamlessly across devices, with carefully crafted grid systems that showcase imagery while maintaining readability. The shared Gallery component provides a unified visual experience across pages, while dedicated sections for Event Setup & Decor, Tablescapes, Florals, and Seasonal offerings allow visitors to explore specific services in depth. Interactive elements include smooth hover transitions, optimized Next.js Image components for fast loading, and strategic call-to-action placements that guide users toward booking inquiries."]
    closingImage := createHeroImage "/Elev8-Moments/work/closing%20image.png" "Final Platform Experience"
    externalLink := some "https://moments.elev8rwanda.com/" }

/-- `workDetailsData`: the catalog store, an insertion-ordered mapping
from slug to `WorkDetail` (the source object literal). -/
def workDetailsData : List (String × WorkDetail) :=
  [("corevia-financial-platform", coreviaFinancialPlatform),
   ("landscapo-architecture-platform", landscapoArchitecturePlatform),
   ("stayli-vacation-rental-platform", stayliVacationRentalPlatform),
   ("elev8-rwanda-website", elev8RwandaWebsite),
   ("elev8-moments-event-design", elev8MomentsEventDesign)]

/-- `getAllWorks`: `Object.values(workDetailsData)` — every project in the
catalog, in insertion order. -/
def getAllWorks : List WorkDetail :=
  workDetailsData.map Prod.snd

/-- `getWorksByCategory`: `getAllWorks().filter(work => work.category === category)`. -/
def getWorksByCategory (category : Category) : List WorkDetail :=
  getAllWorks.filter (fun work => work.category == category)

/-- `getProductsData`: wrapper fixing the category to `'products'`. -/
def getProductsData : List WorkDetail :=
  getWorksByCategory Category.products

/-- `getUIUXData`: wrapper fixing the category to `'uiux'`. -/
def getUIUXData : List WorkDetail :=
  getWorksByCategory Category.uiux

/-- `get3DData`: wrapper fixing the category to `'3d'`. -/
def get3DData : List WorkDetail :=
  getWorksByCategory Category.threeD

/-- `getWorkBySlug`: the bracket lookup `workDetailsData[slug]`, `undefined`
becoming `none`. -/
def getWorkBySlug (slug : String) : Option WorkDetail :=
  workDetailsData.lookup slug

/-- `getAllWorkSlugs`: `Object.keys(workDetailsData)`. -/
def getAllWorkSlugs : List String :=
  workDetailsData.map Prod.fst

/-- The shape of one element of `worksData` (the simplified listing view). -/
structure WorkSummary where
  id : String
  title : String
  description : String
  image : String
deriving DecidableEq

/-- `worksData`: the module-level constant
`getAllWorks().map(work => ({id, title, description, image: work.thumbnailImage}))`,
computed once at module load. -/
def worksData : List WorkSummary :=
  getAllWorks.map (fun work =>
    { id := work.id
      title := work.title
      description := work.description
      image := work.thumbnailImage })

/-! ## Helper lemmas shared by the claim theorems -/

lemma getAllWorks_eq :
    getAllWorks = [coreviaFinancialPlatform, landscapoArchitecturePlatform,
      stayliVacationRentalPlatform, elev8RwandaWebsite, elev8MomentsEventDesign] := rfl

lemma getProductsData_eq : getProductsData = getAllWorks := rfl

lemma getUIUXData_eq : getUIUXData = [] := rfl

lemma get3DData_eq : get3DData = [] := rfl

lemma mem_getWorksByCategory_iff (c : Category) (w : WorkDetail) :
    w ∈ getWorksByCategory c ↔ w ∈ getAllWorks ∧ w.category = c := by
  simp [getWorksByCategory, List.mem_filter]

/-! ## Claim theorems -/

/-- Claim C1: for every string `source`, `generateSrcSet source` is the
comma-separated concatenation of exactly five entries, the first four being
`source` with a `scale-down-to` query parameter of 512, 1024, 2048, 4096
labeled `512w`/`1024w`/`2048w`/`4096w`, and the fifth the unmodified
`source` labeled `4500w`. -/
theorem generateSrcSet_five_entries (src : String) :
    generateSrcSet src =
      String.intercalate ","
        [src ++ "?scale-down-to=512 512w",
         src ++ "?scale-down-to=1024 1024w",
         src ++ "?scale-down-to=2048 2048w",
         src ++ "?scale-down-to=4096 4096w",
         src ++ " 4500w"] := by
  have h1 : ("?scale-down-to=512 512w," : String) = "?scale-down-to=512 512w" ++ "," := rfl
  have h2 : ("?scale-down-to=1024 1024w," : String) = "?scale-down-to=1024 1024w" ++ "," := rfl
  have h3 : ("?scale-down-to=2048 2048w," : String) = "?scale-down-to=2048 2048w" ++ "," := rfl
  have h4 : ("?scale-down-to=4096 4096w," : String) = "?scale-down-to=4096 4096w" ++ "," := rfl
  simp [generateSrcSet, String.intercalate, String.intercalate.go, h1, h2, h3, h4,
    String.append_assoc]

/-- Claim C2: for every `src` and `alt`, `createHeroImage` yields a descriptor
with `width = 2400` and `height = 1600`, while `createSecondaryImage` yields a
descriptor with no `width` and no `height` field. -/
theorem heroImage_secondaryImage_dimensions (src alt : String) :
    (createHeroImage src alt).width = some 2400 ∧
    (createHeroImage src alt).height = some 1600 ∧
    (createSecondaryImage src alt).width = none ∧
    (createSecondaryImage src alt).height = none :=
  ⟨rfl, rfl, rfl, rfl⟩

/-- Claim C3: for every slug that is a key of the catalog, `getWorkBySlug`
returns the project stored under that key, whose `id` field equals the
argument; for every slug that is not a key, it returns `none` (absent),
never an error. -/
theorem getWorkBySlug_lookup (slug : String) :
    (∀ w : WorkDetail, (slug, w) ∈ workDetailsData →
      getWorkBySlug slug = some w ∧ w.id = slug) ∧
    (slug ∉ getAllWorkSlugs → getWorkBySlug slug = none) := by
  constructor
  · intro w hw
    simp only [workDetailsData, List.mem_cons, List.not_mem_nil, or_false,
      Prod.mk.injEq] at hw
    rcases hw with ⟨hk, hv⟩ | ⟨hk, hv⟩ | ⟨hk, hv⟩ | ⟨hk, hv⟩ | ⟨hk, hv⟩ <;>
      subst hk <;> subst hv <;> exact ⟨rfl, rfl⟩
  · intro hn
    simp only [getAllWorkSlugs, workDetailsData, List.map_cons, List.map_nil,
      List.mem_cons, List.not_mem_nil, or_false, not_or] at hn
    obtain ⟨h1, h2, h3, h4, h5⟩ := hn
    have b1 : (slug == "corevia-financial-platform") = false :=
      beq_eq_false_iff_ne.mpr h1
    have b2 : (slug == "landscapo-architecture-platform") = false :=
      beq_eq_false_iff_ne.mpr h2
    have b3 : (slug == "stayli-vacation-rental-platform") = false :=
      beq_eq_false_iff_ne.mpr h3
    have b4 : (slug == "elev8-rwanda-website") = false :=
      beq_eq_false_iff_ne.mpr h4
    have b5 : (slug == "elev8-moments-event-design") = false :=
      beq_eq_false_iff_ne.mpr h5
    simp [getWorkBySlug, workDetailsData, List.lookup, b1, b2, b3, b4, b5]

/-- Witness for C3: the theorem applied at a present key and at the absent
key `does-not-exist`. -/
theorem getWorkBySlug_lookup_witness :
    getWorkBySlug "corevia-financial-platform" = some coreviaFinancialPlatform ∧
    getWorkBySlug "does-not-exist" = none := by
  constructor
  · exact ((getWorkBySlug_lookup "corevia-financial-platform").1
      coreviaFinancialPlatform (List.mem_cons_self _ _)).1
  · exact (getWorkBySlug_lookup "does-not-exist").2 (by decide)

/-- Claim C4: the length of `getAllWorks` equals the number of keys of the
catalog store (the keys being pairwise distinct), and `getAllWorkSlugs` is
the identical sequence to mapping each element of `getAllWorks` to its `id`
field. -/
theorem slugs_match_ids :
    getAllWorkSlugs.Nodup ∧
    getAllWorks.length = getAllWorkSlugs.length ∧
    getAllWorkSlugs = getAllWorks.map WorkDetail.id :=
  ⟨by decide, rfl, rfl⟩

/-- Claim C5: every element of `getWorksByCategory c` has category `c`, and
the three category lists partition `getAllWorks`: pairwise disjoint, and their
union, as a set, is exactly the set of elements of `getAllWorks`. -/
theorem category_lists_partition :
    (∀ c : Category, ∀ w ∈ getWorksByCategory c, w.category = c) ∧
    (∀ w : WorkDetail,
      (w ∈ getProductsData ∨ w ∈ getUIUXData ∨ w ∈ get3DData) ↔ w ∈ getAllWorks) ∧
    (∀ w : WorkDetail, ¬(w ∈ getProductsData ∧ w ∈ getUIUXData)) ∧
    (∀ w : WorkDetail, ¬(w ∈ getProductsData ∧ w ∈ get3DData)) ∧
    (∀ w : WorkDetail, ¬(w ∈ getUIUXData ∧ w ∈ get3DData)) := by
  refine ⟨?_, ?_, ?_, ?_, ?_⟩
  · intro c w hw
    exact ((mem_getWorksByCategory_iff c w).mp hw).2
  · intro w
    constructor
    · rintro (h | h | h) <;>
        exact ((mem_getWorksByCategory_iff _ w).mp h).1
    · intro h
      cases hc : w.category with
      | products => exact Or.inl ((mem_getWorksByCategory_iff _ w).mpr ⟨h, hc⟩)
      | uiux => exact Or.inr (Or.inl ((mem_getWorksByCategory_iff _ w).mpr ⟨h, hc⟩))
      | threeD => exact Or.inr (Or.inr ((mem_getWorksByCategory_iff _ w).mpr ⟨h, hc⟩))
  · rintro w ⟨h1, h2⟩
    have e1 := ((mem_getWorksByCategory_iff _ w).mp h1).2
    have e2 := ((mem_getWorksByCategory_iff _ w).mp h2).2
    rw [e1] at e2
    exact Category.noConfusion e2
  · rintro w ⟨h1, h2⟩
    have e1 := ((mem_getWorksByCategory_iff _ w).mp h1).2
    have e2 := ((mem_getWorksByCategory_iff _ w).mp h2).2
    rw [e1] at e2
    exact Category.noConfusion e2
  · rintro w ⟨h1, h2⟩
    have e1 := ((mem_getWorksByCategory_iff _ w).mp h1).2
    have e2 := ((mem_getWorksByCategory_iff _ w).mp h2).2
    rw [e1] at e2
    exact Category.noConfusion e2

/-- Witness for C5: the theorem applied to the first catalog project, a
member of the `products` list. -/
theorem category_lists_partition_witness :
    coreviaFinancialPlatform.category = Category.products :=
  category_lists_partition.1 Category.products coreviaFinancialPlatform
    (by show coreviaFinancialPlatform ∈ getProductsData
        rw [getProductsData_eq, getAllWorks_eq]
        exact List.mem_cons_self _ _)

/-- Claim C6: for every category value, `getWorksByCategory` returns exactly
the subsequence of `getAllWorks` whose elements have that category, in the
same relative order (a sublist containing all and only the matching
elements), and returns the empty sequence — not an error — when no project
matches. -/
theorem getWorksByCategory_subsequence (c : Category) :
    (getWorksByCategory c).Sublist getAllWorks ∧
    (∀ w ∈ getWorksByCategory c, w.category = c) ∧
    (∀ w ∈ getAllWorks, w.category = c → w ∈ getWorksByCategory c) ∧
    ((∀ w ∈ getAllWorks, w.category ≠ c) → getWorksByCategory c = []) := by
  refine ⟨List.filter_sublist _, ?_, ?_, ?_⟩
  · intro w hw
    exact ((mem_getWorksByCategory_iff c w).mp hw).2
  · intro w hw hc
    exact (mem_getWorksByCategory_iff c w).mpr ⟨hw, hc⟩
  · intro hnone
    rw [getWorksByCategory, List.filter_eq_nil_iff]
    intro w hw
    simpa using hnone w hw

/-- Witness for C6: the theorem applied at category `uiux`, for which no
catalog project matches, yielding the empty list. -/
theorem getWorksByCategory_subsequence_witness :
    getWorksByCategory Category.uiux = [] :=
  (getWorksByCategory_subsequence Category.uiux).2.2.2 (by decide)

/-- Claim C7: `createWorkImage source alt width height` keeps `source`,
derives `srcSet` as `generateSrcSet source`, keeps `alt`, fixes `sizes` to
the constant `calc(100vw - 24px)`, and carries the `width` (resp. `height`)
field exactly when the corresponding argument is provided and truthy — a
zero or absent argument yields no such field. -/
theorem createWorkImage_fields (src alt : String) (width height : Option Nat) :
    (createWorkImage src alt width height).src = src ∧
    (createWorkImage src alt width height).srcSet = some (generateSrcSet src) ∧
    (createWorkImage src alt width height).alt = alt ∧
    (createWorkImage src alt width height).sizes = some "calc(100vw - 24px)" ∧
    ((createWorkImage src alt width height).width.isSome ↔
      ∃ n, width = some n ∧ n ≠ 0) ∧
    (∀ n, width = some n → n ≠ 0 →
      (createWorkImage src alt width height).width = some n) ∧
    ((createWorkImage src alt width height).height.isSome ↔
      ∃ n, height = some n ∧ n ≠ 0) ∧
    (∀ n, height = some n → n ≠ 0 →
      (createWorkImage src alt width height).height = some n) := by
  refine ⟨rfl, rfl, rfl, rfl, ?_, ?_, ?_, ?_⟩
  · cases width with
    | none => simp [createWorkImage]
    | some w =>
      by_cases hw : w = 0 <;> simp [createWorkImage, hw]
  · intro n hn hne
    subst hn
    simp [createWorkImage, hne]
  · cases height with
    | none => simp [createWorkImage]
    | some h =>
      by_cases hh : h = 0 <;> simp [createWorkImage, hh]
  · intro n hn hne
    subst hn
    simp [createWorkImage, hne]

/-- Witness for C7: the theorem applied at a concrete call with both
dimensions provided and truthy. -/
theorem createWorkImage_fields_witness :
    (createWorkImage "/a.png" "alt" (some 2400) (some 1600)).width = some 2400 :=
  (createWorkImage_fields "/a.png" "alt" (some 2400) (some 1600)).2.2.2.2.2.1
    2400 rfl (by decide)

/-- Claim C8: `worksData` is the pointwise projection of every catalog entry,
in catalog order, to the four fields id/title/description/image, with image
taken from the project's `thumbnailImage`; it is a module-level constant
(computed once at load, not a function re-run per call); in particular the
summary with id `stayli-vacation-rental-platform` carries that project's
`thumbnailImage`. -/
theorem worksData_projection :
    worksData.length = getAllWorks.length ∧
    (worksData.zip getAllWorks).all
      (fun p => p.1.id == p.2.id && p.1.title == p.2.title &&
        p.1.description == p.2.description && p.1.image == p.2.thumbnailImage) = true ∧
    (worksData.find? (fun s => s.id == "stayli-vacation-rental-platform")).map
      (fun s => s.image) = some stayliVacationRentalPlatform.thumbnailImage :=
  ⟨rfl, by decide, rfl⟩

/-- Claim C9: every one of the five projects in the shipped catalog has
category `products`; hence `getProductsData` returns all five projects in
catalog order while `getUIUXData` and `get3DData` return the empty
sequence. -/
theorem shipped_catalog_all_products :
    (getAllWorks.all fun w => w.category == Category.products) = true ∧
    getAllWorks.length = 5 ∧
    getProductsData = getAllWorks ∧
    getUIUXData = [] ∧
    get3DData = [] :=
  ⟨by decide, rfl, getProductsData_eq, getUIUXData_eq, get3DData_eq⟩

/-- Claim C10: `createWorkImage` includes `width` and `height` independently:
with a truthy width and an absent or zero height (or vice versa) it yields a
descriptor carrying exactly one dimension field, even though every image in
the shipped catalog carries either both dimensions or neither. -/
theorem createWorkImage_one_dimension :
    (createWorkImage "/a.png" "a" (some 800)).width = some 800 ∧
    (createWorkImage "/a.png" "a" (some 800)).height = none ∧
    (createWorkImage "/b.png" "b" none (some 600)).width = none ∧
    (createWorkImage "/b.png" "b" none (some 600)).height = some 600 ∧
    (createWorkImage "/c.png" "c" (some 800) (some 0)).width = some 800 ∧
    (createWorkImage "/c.png" "c" (some 800) (some 0)).height = none ∧
    (getAllWorks.all fun w =>
      [w.heroImage, w.secondaryImage, w.processImage, w.closingImage].all
        fun img => img.width.isSome == img.height.isSome) = true :=
  ⟨rfl, rfl, rfl, rfl, rfl, rfl, by decide⟩

end WorksData
